import Mathlib

/-!
Shallow embedding of `src/app/run.py` (local-llm-playground): the metrics
collector (`_read_vm_stat`, `_pressure_level`, `collect_metrics`) and the run
orchestrator (`run_prompt`, `save_run`).  Python floats are modelled as
rationals; Python's `round(x, n)` is modelled as decimal rounding half-to-even;
OS readings (clock, psutil counters, the `vm_stat` output text, the HTTP reply)
are passed explicitly as an environment.
-/

namespace LocalLLM

/-- Python `round` to an integer: round half to even (banker's rounding). -/
def roundHalfEven (q : ℚ) : ℤ :=
  if q - ⌊q⌋ < 1/2 then ⌊q⌋
  else if 1/2 < q - ⌊q⌋ then ⌊q⌋ + 1
  else if ⌊q⌋ % 2 = 0 then ⌊q⌋ else ⌊q⌋ + 1

/-- Python `round(q, n)`: round to `n` decimal places, half to even. -/
def pyRound (q : ℚ) (n : ℕ) : ℚ :=
  (roundHalfEven (q * 10 ^ n) : ℚ) / 10 ^ n

lemma floor_le_roundHalfEven (q : ℚ) : ⌊q⌋ ≤ roundHalfEven q := by
  unfold roundHalfEven
  split_ifs <;> omega

lemma roundHalfEven_le_floor_add_one (q : ℚ) : roundHalfEven q ≤ ⌊q⌋ + 1 := by
  unfold roundHalfEven
  split_ifs <;> omega

lemma roundHalfEven_mono {a b : ℚ} (h : a ≤ b) : roundHalfEven a ≤ roundHalfEven b := by
  rcases eq_or_lt_of_le (Int.floor_mono h) with hf | hf
  · unfold roundHalfEven
    rw [← hf]
    split_ifs <;> first | omega | (exfalso; linarith)
  · calc roundHalfEven a ≤ ⌊a⌋ + 1 := roundHalfEven_le_floor_add_one a
      _ ≤ ⌊b⌋ := hf
      _ ≤ roundHalfEven b := floor_le_roundHalfEven b

lemma roundHalfEven_nonneg {q : ℚ} (h : 0 ≤ q) : 0 ≤ roundHalfEven q := by
  have := floor_le_roundHalfEven q
  have h0 : (0 : ℤ) ≤ ⌊q⌋ := Int.floor_nonneg.mpr h
  omega

lemma pyRound_mono {a b : ℚ} (n : ℕ) (h : a ≤ b) : pyRound a n ≤ pyRound b n := by
  unfold pyRound
  have hm : a * 10 ^ n ≤ b * 10 ^ n := by
    have : (0 : ℚ) ≤ 10 ^ n := by positivity
    nlinarith
  have := roundHalfEven_mono hm
  have hc : ((roundHalfEven (a * 10 ^ n) : ℚ)) ≤ (roundHalfEven (b * 10 ^ n) : ℚ) := by
    exact_mod_cast this
  gcongr

lemma pyRound_nonneg {q : ℚ} (n : ℕ) (h : 0 ≤ q) : 0 ≤ pyRound q n := by
  unfold pyRound
  have h1 : (0 : ℚ) ≤ q * 10 ^ n := by positivity
  have h2 := roundHalfEven_nonneg h1
  have hc : (0 : ℚ) ≤ (roundHalfEven (q * 10 ^ n) : ℚ) := by exact_mod_cast h2
  positivity

/-! ### Text scanning, modelling the two `re.search` patterns of `_read_vm_stat`

The patterns are `page size of (\d+) bytes` and `<label>:\s+(\d+)\.` (the label
is `re.escape`d).  `re.search` returns the leftmost match; since whitespace,
digits and the trailing literal are pairwise disjoint character classes, the
greedy maximal-munch scan below coincides with the regex semantics. -/

/-- Python `\s` on the ASCII range (the reports are ASCII). -/
def isPySpace (c : Char) : Bool :=
  c = ' ' || c = '\t' || c = '\n' || c = '\r' || c = '\x0b' || c = '\x0c'

/-- Python `\d` on the ASCII range. -/
def isDigitCh (c : Char) : Bool :=
  '0' ≤ c && c ≤ '9'

/-- Numeric value of a digit string (`int()` of the captured group). -/
def digitsToNat (ds : List Char) : ℕ :=
  ds.foldl (fun n c => 10 * n + (c.toNat - '0'.toNat)) 0

/-- Match `\s+(\d+)\.` at the start of `s`, returning the captured integer. -/
def parseCounterTail (s : List Char) : Option ℕ :=
  match s with
  | [] => none
  | c :: rest =>
    if isPySpace c then
      let s1 := rest.dropWhile (fun d => isPySpace d)
      let ds := s1.takeWhile isDigitCh
      if ds = [] then none
      else
        match s1.drop ds.length with
        | '.' :: _ => some (digitsToNat ds)
        | _ => none
    else none

/-- Match `<label>:\s+(\d+)\.` at the start of `s`. -/
def matchCounterAt (label s : List Char) : Option ℕ :=
  if (label ++ [':']).isPrefixOf s then parseCounterTail (s.drop (label.length + 1))
  else none

/-- `re.search` of `<label>:\s+(\d+)\.`: leftmost match of the counter pattern. -/
def searchCounter (label : List Char) : List Char → Option ℕ
  | [] => none
  | c :: rest => (matchCounterAt label (c :: rest)).orElse fun _ => searchCounter label rest

/-- Match `page size of (\d+) bytes` at the start of `s`. -/
def matchPageSizeAt (s : List Char) : Option ℕ :=
  if ("page size of ".data).isPrefixOf s then
    let s1 := s.drop 13
    let ds := s1.takeWhile isDigitCh
    if ds = [] then none
    else if (" bytes".data).isPrefixOf (s1.drop ds.length) then some (digitsToNat ds)
    else none
  else none

/-- `re.search` of `page size of (\d+) bytes`: leftmost match. -/
def searchPageSize : List Char → Option ℕ
  | [] => none
  | c :: rest => (matchPageSizeAt (c :: rest)).orElse fun _ => searchPageSize rest

/-- Does `p` occur as a contiguous run inside `s`? -/
def containsSeq (p : List Char) : List Char → Bool
  | [] => p.isPrefixOf ([] : List Char)
  | c :: rest => p.isPrefixOf (c :: rest) || containsSeq p rest

/-! ### Data model (the pydantic models of `run.py`) -/

/-- `RunConfig` (pydantic model). -/
structure RunConfig where
  model : String
  temperature : ℚ
  prompt : String
deriving DecidableEq

/-- `SystemMetrics` (pydantic model). -/
structure SystemMetrics where
  wall_time_s : ℚ
  cpu_percent : ℚ
  mem_rss_mb : ℚ
  system_mem_used_mb : ℚ
  system_mem_available_mb : ℚ
  swap_used_mb : ℚ
  swap_total_mb : ℚ
  memory_pressure : String
  vm_available_mb : ℚ
  vm_compressed_mb : ℚ
deriving DecidableEq

/-- `RunResult` (pydantic model). -/
structure RunResult where
  config : RunConfig
  response : String
  created_at : String
  metrics : SystemMetrics
deriving DecidableEq

/-! ### `_read_vm_stat` and `_pressure_level` -/

/-- The dict returned by `_read_vm_stat`. -/
structure VmStat where
  page_size : ℕ
  pages_free : ℕ
  pages_spec : ℕ
  pages_comp : ℕ
deriving DecidableEq

/-- Failure of `subprocess.check_output(["vm_stat"])`: missing binary
(`FileNotFoundError`) or nonzero exit (`CalledProcessError`). -/
inductive VmStatError where
  | fileNotFound
  | calledProcessError (returncode : ℤ)
deriving DecidableEq

/-- The inner `get_pages` of `_read_vm_stat`: first match of
`<label>:\s+(\d+)\.` in `out`, else `0`. -/
def get_pages (label : String) (out : String) : ℕ :=
  (searchCounter label.data out.data).getD 0

/-- `_read_vm_stat`, as a pure function of the `vm_stat` output text. -/
def read_vm_stat (out : String) : VmStat :=
  { page_size := (searchPageSize out.data).getD 4096
    pages_free := get_pages "Pages free" out
    pages_spec := get_pages "Pages speculative" out
    pages_comp := get_pages "Pages occupied by compressor" out }

/-- `_pressure_level`. -/
def pressure_level (system_available_mb swap_used_mb : ℚ) : String :=
  if swap_used_mb > 256 ∨ system_available_mb < 1024 then "high"
  else if swap_used_mb > 0 ∨ system_available_mb < 2048 then "medium"
  else "low"

/-! ### `collect_metrics` -/

/-- The OS readings `collect_metrics` (and `run_prompt`) observe: the clock,
the psutil process/system/swap counters (byte counts are the integers psutil
reports), and the outcome of invoking `vm_stat`.  `t_start` is `time.time()`
taken at the top of `run_prompt`; `now` is `time.time()` taken inside
`collect_metrics`; `cpu_percent` is the interval-based reading of
`proc.cpu_percent(interval=0.1)` after the priming call. -/
structure Env where
  t_start : ℚ
  now : ℚ
  cpu_percent : ℚ
  rss_bytes : ℕ
  vm_used_bytes : ℕ
  vm_available_bytes : ℕ
  swap_used_bytes : ℕ
  swap_total_bytes : ℕ
  vm_stat_out : Except VmStatError String

/-- The straight-line body of `collect_metrics` once `_read_vm_stat` has
returned the report text `out`. -/
def collect_metrics_core (env : Env) (out : String) (start_time : ℚ) : SystemMetrics :=
    let vmstat := read_vm_stat out
    let rss_mb : ℚ := (env.rss_bytes : ℚ) / (1024 * 1024)
    let used_mb : ℚ := (env.vm_used_bytes : ℚ) / (1024 * 1024)
    let avail_mb : ℚ := (env.vm_available_bytes : ℚ) / (1024 * 1024)
    let swap_used_mb : ℚ := (env.swap_used_bytes : ℚ) / (1024 * 1024)
    let swap_total_mb : ℚ := (env.swap_total_bytes : ℚ) / (1024 * 1024)
    let page_size := vmstat.page_size
    let vm_available_bytes := (vmstat.pages_free + vmstat.pages_spec) * page_size
    let vm_compressed_bytes := vmstat.pages_comp * page_size
    let vm_available_mb : ℚ := (vm_available_bytes : ℚ) / (1024 * 1024)
    let vm_compressed_mb : ℚ := (vm_compressed_bytes : ℚ) / (1024 * 1024)
    let pressure := pressure_level avail_mb swap_used_mb
    { wall_time_s := pyRound (env.now - start_time) 4
      cpu_percent := env.cpu_percent
      mem_rss_mb := pyRound rss_mb 2
      system_mem_used_mb := pyRound used_mb 2
      system_mem_available_mb := pyRound avail_mb 2
      swap_used_mb := pyRound swap_used_mb 2
      swap_total_mb := pyRound swap_total_mb 2
      memory_pressure := pressure
      vm_available_mb := pyRound vm_available_mb 2
      vm_compressed_mb := pyRound vm_compressed_mb 2 }

/-- `collect_metrics(start_time)`: pure in the observed `Env`; a `vm_stat`
invocation failure is not caught and propagates. -/
def collect_metrics (env : Env) (start_time : ℚ) : Except VmStatError SystemMetrics :=
  match env.vm_stat_out with
  | .error e => .error e
  | .ok out => .ok (collect_metrics_core env out start_time)

/-! ### JSON values, `model_dump` and the persisted record -/

/-- JSON values as far as `run.py` produces or consumes them. -/
inductive Json where
  | str (s : String)
  | num (q : ℚ)
  | bool (b : Bool)
  | obj (fields : List (String × Json))

/-- Key lookup in a JSON object (`data["k"]`, as `Option`). -/
def jsonLookup (j : Json) (k : String) : Option Json :=
  match j with
  | .obj fields => fields.lookup k
  | _ => none

/-- `config.model_dump()`. -/
def dumpRunConfig (c : RunConfig) : Json :=
  .obj [("model", .str c.model), ("temperature", .num c.temperature),
        ("prompt", .str c.prompt)]

/-- `metrics.model_dump()` (field order of the pydantic model). -/
def dumpSystemMetrics (m : SystemMetrics) : Json :=
  .obj [("wall_time_s", .num m.wall_time_s),
        ("cpu_percent", .num m.cpu_percent),
        ("mem_rss_mb", .num m.mem_rss_mb),
        ("system_mem_used_mb", .num m.system_mem_used_mb),
        ("system_mem_available_mb", .num m.system_mem_available_mb),
        ("swap_used_mb", .num m.swap_used_mb),
        ("swap_total_mb", .num m.swap_total_mb),
        ("memory_pressure", .str m.memory_pressure),
        ("vm_available_mb", .num m.vm_available_mb),
        ("vm_compressed_mb", .num m.vm_compressed_mb)]

/-- `result.model_dump()`: the persisted record with top-level keys
`config`, `response`, `created_at`, `metrics`. -/
def dumpRunResult (r : RunResult) : Json :=
  .obj [("config", dumpRunConfig r.config), ("response", .str r.response),
        ("created_at", .str r.created_at), ("metrics", dumpSystemMetrics r.metrics)]

/-- Read a JSON string. -/
def jsonAsStr : Json → Option String
  | .str s => some s
  | _ => none

/-- Read a JSON number. -/
def jsonAsNum : Json → Option ℚ
  | .num q => some q
  | _ => none

/-- Modelled from the spec: the repository persists run records but contains no
loader for them; §6 fixes the file format (top-level keys `config`, `response`,
`created_at`, `metrics`, with the `config` and `SystemMetrics` fields of §3),
so this is the evident parser of that format. -/
def parseRunConfig (j : Json) : Option RunConfig := do
  let model ← jsonAsStr (← jsonLookup j "model")
  let temperature ← jsonAsNum (← jsonLookup j "temperature")
  let prompt ← jsonAsStr (← jsonLookup j "prompt")
  pure { model := model, temperature := temperature, prompt := prompt }

/-- Field-then-number lookup, for the parsers below. -/
def jsonNumAt (j : Json) (k : String) : Option ℚ :=
  (jsonLookup j k).bind jsonAsNum

/-- Field-then-string lookup, for the parsers below. -/
def jsonStrAt (j : Json) (k : String) : Option String :=
  (jsonLookup j k).bind jsonAsStr

/-- Modelled from the spec: parser for the `metrics` object of the persisted
record (all `SystemMetrics` fields of §3). -/
def parseSystemMetrics (j : Json) : Option SystemMetrics := do
  let wall : ℚ ← jsonNumAt j "wall_time_s"
  let cpu : ℚ ← jsonNumAt j "cpu_percent"
  let rss : ℚ ← jsonNumAt j "mem_rss_mb"
  let used : ℚ ← jsonNumAt j "system_mem_used_mb"
  let avail : ℚ ← jsonNumAt j "system_mem_available_mb"
  let swapU : ℚ ← jsonNumAt j "swap_used_mb"
  let swapT : ℚ ← jsonNumAt j "swap_total_mb"
  let pressure : String ← jsonStrAt j "memory_pressure"
  let vmA : ℚ ← jsonNumAt j "vm_available_mb"
  let vmC : ℚ ← jsonNumAt j "vm_compressed_mb"
  pure (SystemMetrics.mk wall cpu rss used avail swapU swapT pressure vmA vmC)

/-- Modelled from the spec: parser for the whole persisted run record. -/
def parseRunResult (j : Json) : Option RunResult := do
  let config ← parseRunConfig (← jsonLookup j "config")
  let response ← jsonAsStr (← jsonLookup j "response")
  let created_at ← jsonAsStr (← jsonLookup j "created_at")
  let metrics ← parseSystemMetrics (← jsonLookup j "metrics")
  pure { config := config, response := response, created_at := created_at
         metrics := metrics }

/-! ### `run_prompt` -/

/-- What the one `client.post` to the inference endpoint yields: an
HTTP-level failure (`httpx.RequestError`) or a response with a status code
and a JSON body. -/
inductive Reply where
  | netFailure
  | response (status : ℕ) (body : Json)

/-- Errors a run can die with.  `requestError` covers both the network
failure raised by `client.post` and the non-2xx status raised by
`r.raise_for_status()`; `dataError` is the uncaught `KeyError`/`TypeError`
when the body has no string `response` field; `metricsError` wraps the
uncaught `vm_stat` invocation failure. -/
inductive RunError where
  | requestError
  | dataError
  | metricsError (e : VmStatError)
deriving DecidableEq

/-- `httpx` success statuses (`raise_for_status` raises outside 2xx). -/
def is_success (status : ℕ) : Bool :=
  200 ≤ status && status < 300

/-- Python `str.strip()` (ASCII whitespace). -/
def pyStrip (s : String) : String :=
  ⟨((s.data.dropWhile fun c => isPySpace c).reverse.dropWhile fun c => isPySpace c).reverse⟩

/-- The request payload `run_prompt` posts. -/
def request_payload (config : RunConfig) : Json :=
  .obj [("model", .str config.model), ("prompt", .str config.prompt),
        ("temperature", .num config.temperature), ("stream", .bool false)]

/-- `run_prompt(config)`, over an explicit environment, the single endpoint
reply, and the `datetime.now(timezone.utc).isoformat()` string.  The second
component counts the POST requests issued (the code issues exactly one and
never retries). -/
def run_prompt (config : RunConfig) (env : Env) (reply : Reply)
    (created_at : String) : Except RunError RunResult × ℕ :=
  (match reply with
   | .netFailure => .error .requestError
   | .response status body =>
     if is_success status then
       match collect_metrics env env.t_start with
       | .error e => .error (.metricsError e)
       | .ok metrics =>
         match jsonLookup body "response" with
         | some (.str s) =>
           .ok { config := config, response := pyStrip s,
                 created_at := created_at, metrics := metrics }
         | _ => .error .dataError
     else .error .requestError, 1)

/-! ### `save_run` -/

/-- A UTC wall-clock instant, as `datetime.now(timezone.utc)` observes it
(to second precision, which is all `strftime("%Y%m%d_%H%M%S")` uses). -/
structure DateTime where
  year : ℕ
  month : ℕ
  day : ℕ
  hour : ℕ
  minute : ℕ
  second : ℕ

/-- Zero-pad a numeral to width 2 (`%m`, `%d`, `%H`, `%M`, `%S`). -/
def pad2 (n : ℕ) : String :=
  if n < 10 then "0" ++ Nat.repr n else Nat.repr n

/-- Zero-pad a numeral to width 4 (`%Y`). -/
def pad4 (n : ℕ) : String :=
  if n < 10 then "000" ++ Nat.repr n
  else if n < 100 then "00" ++ Nat.repr n
  else if n < 1000 then "0" ++ Nat.repr n
  else Nat.repr n

/-- `strftime("%Y%m%d_%H%M%S")`. -/
def strftimeStamp (t : DateTime) : String :=
  pad4 t.year ++ pad2 t.month ++ pad2 t.day ++ "_" ++
    pad2 t.hour ++ pad2 t.minute ++ pad2 t.second

/-- Smallest number of decimal digits (at least one) after the point that
writes `q` exactly — the smallest `k ≥ 1` with `q.den ∣ 10 ^ k` — capped at
17; the model of the length of the fractional part of Python's shortest
`str(float)`. -/
def fracLen (q : ℚ) : ℕ :=
  (List.range 17).foldr (fun i acc => if 10 ^ (i + 1) % q.den = 0 then i + 1 else acc) 17

/-- Python `str()` of a nonnegative float that is a short decimal: integer
part, a dot, and the shortest exact fractional expansion (at least one
digit, as in `str(2.0) == "2.0"`). -/
def floatStr (q : ℚ) : String :=
  let k := fracLen q
  let ip := q.num.toNat / q.den
  let fracNum := q.num.toNat % q.den * 10 ^ k / q.den
  let fracRaw := Nat.repr fracNum
  let fracStr := String.mk (List.replicate (k - fracRaw.length) '0') ++ fracRaw
  Nat.repr ip ++ "." ++ fracStr

/-- `.replace(".", "p")`. -/
def replaceDotP (s : String) : String :=
  ⟨s.data.map fun c => if c = '.' then 'p' else c⟩

/-- `save_run(result)`, over the UTC instant `datetime.now(timezone.utc)`
observed at save time.  Returns the path written and the JSON content
(`result.model_dump()`). -/
def save_run (now : DateTime) (result : RunResult) : String × Json :=
  let timestamp := strftimeStamp now
  let temp_str := replaceDotP (floatStr result.config.temperature)
  ("runs/run_" ++ timestamp ++ "_t" ++ temp_str ++ ".json", dumpRunResult result)

/-! ### Shared lemmas -/

lemma collect_metrics_eq_ok {env : Env} {out : String} (h : env.vm_stat_out = .ok out)
    (start : ℚ) : collect_metrics env start = .ok (collect_metrics_core env out start) := by
  unfold collect_metrics
  rw [h]

lemma collect_metrics_eq_error {env : Env} {e : VmStatError} (h : env.vm_stat_out = .error e)
    (start : ℚ) : collect_metrics env start = .error e := by
  unfold collect_metrics
  rw [h]

lemma collect_metrics_ok_elim {env : Env} {start : ℚ} {m : SystemMetrics}
    (h : collect_metrics env start = .ok m) :
    ∃ out, env.vm_stat_out = .ok out ∧ m = collect_metrics_core env out start := by
  unfold collect_metrics at h
  cases hvm : env.vm_stat_out with
  | error e => rw [hvm] at h; exact absurd h (by simp)
  | ok out =>
    rw [hvm] at h
    refine ⟨out, rfl, ?_⟩
    exact (Except.ok.injEq _ _ ▸ h).symm

lemma core_wall_time (env : Env) (out : String) (start : ℚ) :
    (collect_metrics_core env out start).wall_time_s = pyRound (env.now - start) 4 := rfl

lemma core_memory_pressure (env : Env) (out : String) (start : ℚ) :
    (collect_metrics_core env out start).memory_pressure =
      pressure_level ((env.vm_available_bytes : ℚ) / (1024 * 1024))
        ((env.swap_used_bytes : ℚ) / (1024 * 1024)) := rfl

lemma core_system_mem_available (env : Env) (out : String) (start : ℚ) :
    (collect_metrics_core env out start).system_mem_available_mb =
      pyRound ((env.vm_available_bytes : ℚ) / (1024 * 1024)) 2 := rfl

lemma core_swap_used (env : Env) (out : String) (start : ℚ) :
    (collect_metrics_core env out start).swap_used_mb =
      pyRound ((env.swap_used_bytes : ℚ) / (1024 * 1024)) 2 := rfl

lemma core_vm_compressed (env : Env) (out : String) (start : ℚ) :
    (collect_metrics_core env out start).vm_compressed_mb =
      pyRound (((read_vm_stat out).pages_comp * (read_vm_stat out).page_size : ℕ) / (1024 * 1024) : ℚ) 2 := rfl

lemma isPrefixOf_of_append : ∀ (p q s : List Char),
    (p ++ q).isPrefixOf s = true → p.isPrefixOf s = true
  | [], _, s, _ => by cases s <;> rfl
  | _ :: _, _, [], h => Bool.noConfusion h
  | a :: as, q, b :: bs, h => by
    simp only [List.cons_append, List.isPrefixOf, Bool.and_eq_true] at h ⊢
    exact ⟨h.1, isPrefixOf_of_append as q bs h.2⟩

lemma searchCounter_eq_none (label : List Char) :
    ∀ s : List Char, containsSeq label s = false → searchCounter label s = none
  | [], _ => rfl
  | c :: rest, h => by
    unfold containsSeq at h
    rw [Bool.or_eq_false_iff] at h
    have hm : matchCounterAt label (c :: rest) = none := by
      unfold matchCounterAt
      rw [if_neg]
      intro hp
      have := isPrefixOf_of_append label [':'] (c :: rest) hp
      rw [h.1] at this
      exact Bool.noConfusion this
    unfold searchCounter
    rw [hm]
    simpa [Option.orElse] using searchCounter_eq_none label rest h.2

lemma pyRound_zero (n : ℕ) : pyRound 0 n = 0 := by
  norm_num [pyRound, roundHalfEven]

lemma read_vm_stat_page_size (out : String) :
    (read_vm_stat out).page_size = (searchPageSize out.data).getD 4096 := rfl

/-! ### Claims -/

/-- C1: `_pressure_level` is a pure function of
`(system_available_mb, swap_used_mb)` applying ordered thresholds, first
match wins: "high" if `swap_used_mb > 256` or `system_available_mb < 1024`;
otherwise "medium" if `swap_used_mb > 0` or `system_available_mb < 2048`;
otherwise "low".  In particular swap 300 yields "high" for every available
value, (3000, 0) yields "low", (3000, 10) yields "medium", and (500, 0)
yields "high". -/
theorem pressure_level_spec :
    (∀ a s : ℚ, pressure_level a s =
      if s > 256 ∨ a < 1024 then "high"
      else if s > 0 ∨ a < 2048 then "medium"
      else "low") ∧
    (∀ a : ℚ, pressure_level a 300 = "high") ∧
    pressure_level 3000 0 = "low" ∧
    pressure_level 3000 10 = "medium" ∧
    pressure_level 500 0 = "high" := by
  refine ⟨fun a s => rfl, fun a => ?_, ?_, ?_, ?_⟩
  · rw [pressure_level, if_pos (Or.inl (by norm_num))]
  · rw [pressure_level, if_neg (by push_neg; norm_num), if_neg (by push_neg; norm_num)]
  · rw [pressure_level, if_neg (by push_neg; norm_num), if_pos (Or.inl (by norm_num))]
  · rw [pressure_level, if_pos (Or.inr (by norm_num))]

/-- C5: serializing a `RunResult` to the persisted JSON format (top-level
keys `config`, `response`, `created_at`, `metrics`) and parsing it back
yields a value equal in all fields to the original. -/
theorem run_result_roundtrip (r : RunResult) :
    parseRunResult (dumpRunResult r) = some r := rfl

/-- C3: for every report text in which a labeled page counter is not found
(in particular every text not containing the label "Pages occupied by
compressor"), parsing treats that count as zero and the derived
`vm_compressed_mb` of a successful metrics sample equals `0`. -/
theorem vm_missing_counter_defaults_zero :
    (∀ label out : String, containsSeq label.data out.data = false →
        get_pages label out = 0) ∧
    (∀ (out : String) (env : Env) (start : ℚ),
        containsSeq "Pages occupied by compressor".data out.data = false →
        env.vm_stat_out = .ok out →
        ∃ m : SystemMetrics, collect_metrics env start = .ok m ∧
          m.vm_compressed_mb = 0) := by
  have hgp : ∀ label out : String, containsSeq label.data out.data = false →
      get_pages label out = 0 := by
    intro label out h
    unfold get_pages
    rw [searchCounter_eq_none label.data out.data h]
    rfl
  refine ⟨hgp, ?_⟩
  intro out env start hc hvm
  refine ⟨collect_metrics_core env out start, collect_metrics_eq_ok hvm start, ?_⟩
  rw [core_vm_compressed]
  have hcomp : (read_vm_stat out).pages_comp = 0 := hgp _ _ hc
  rw [hcomp]
  simpa using pyRound_zero 2

/-- Environment used by the C3 witness: `vm_stat` prints a report with no
compressor line. -/
def envC3 : Env :=
  { t_start := 0, now := 0, cpu_percent := 0, rss_bytes := 0, vm_used_bytes := 0
    vm_available_bytes := 0, swap_used_bytes := 0, swap_total_bytes := 0
    vm_stat_out := .ok "Pages free: 5." }

theorem vm_missing_counter_defaults_zero_witness :
    containsSeq "Pages occupied by compressor".data "Pages free: 5.".data = false ∧
    envC3.vm_stat_out = .ok "Pages free: 5." ∧
    ∃ m : SystemMetrics, collect_metrics envC3 0 = .ok m ∧ m.vm_compressed_mb = 0 :=
  ⟨by decide, rfl,
    vm_missing_counter_defaults_zero.2 "Pages free: 5." envC3 0 (by decide) rfl⟩

/-- C9: when the `vm_stat` invocation itself fails (missing binary or
nonzero exit), `collect_metrics` does not catch the failure and does not
substitute defaults: the error propagates, and a run whose endpoint reply
was successful still aborts with it. -/
theorem collect_metrics_propagates_vm_stat_failure :
    ∀ (env : Env) (start : ℚ) (e : VmStatError), env.vm_stat_out = .error e →
      collect_metrics env start = .error e ∧
      ∀ (cfg : RunConfig) (status : ℕ) (body : Json) (created : String),
        is_success status = true →
        run_prompt cfg env (.response status body) created =
          (.error (.metricsError e), 1) := by
  intro env start e h
  refine ⟨collect_metrics_eq_error h start, ?_⟩
  intro cfg status body created hs
  simp only [run_prompt]
  rw [if_pos hs, collect_metrics_eq_error h env.t_start]

/-- Environment used by the C9 witness: the `vm_stat` binary is missing. -/
def envC9 : Env :=
  { t_start := 0, now := 0, cpu_percent := 0, rss_bytes := 0, vm_used_bytes := 0
    vm_available_bytes := 0, swap_used_bytes := 0, swap_total_bytes := 0
    vm_stat_out := .error .fileNotFound }

theorem collect_metrics_propagates_vm_stat_failure_witness :
    envC9.vm_stat_out = .error .fileNotFound ∧
    is_success 200 = true ∧
    collect_metrics envC9 0 = .error .fileNotFound ∧
    run_prompt ⟨"llama3.1:8b", 0, "p"⟩ envC9 (.response 200 (.obj [])) "t" =
      (.error (.metricsError .fileNotFound), 1) :=
  ⟨rfl, rfl, (collect_metrics_propagates_vm_stat_failure envC9 0 .fileNotFound rfl).1,
    (collect_metrics_propagates_vm_stat_failure envC9 0 .fileNotFound rfl).2
      ⟨"llama3.1:8b", 0, "p"⟩ 200 (.obj []) "t" rfl⟩

/-- C4: for a fixed environment, `wall_time_s = round(now - start_time, 4)`
is nonnegative whenever `start_time` is not later than the clock, and is
antitone in `start_time`. -/
theorem collect_metrics_wall_time_spec :
    ∀ (env : Env) (s₁ s₂ : ℚ) (m₁ m₂ : SystemMetrics),
      collect_metrics env s₁ = .ok m₁ → collect_metrics env s₂ = .ok m₂ →
      (s₁ ≤ env.now → 0 ≤ m₁.wall_time_s) ∧
      (s₁ ≤ s₂ → m₂.wall_time_s ≤ m₁.wall_time_s) := by
  intro env s₁ s₂ m₁ m₂ h₁ h₂
  obtain ⟨out₁, hv₁, hm₁⟩ := collect_metrics_ok_elim h₁
  obtain ⟨out₂, hv₂, hm₂⟩ := collect_metrics_ok_elim h₂
  subst hm₁
  subst hm₂
  rw [core_wall_time, core_wall_time]
  constructor
  · intro hle
    exact pyRound_nonneg 4 (by linarith)
  · intro hle
    exact pyRound_mono 4 (by linarith)

/-- Environment used by the C4 and C6 witnesses. -/
def envW : Env :=
  { t_start := 0, now := 1, cpu_percent := 0, rss_bytes := 0, vm_used_bytes := 0
    vm_available_bytes := 0, swap_used_bytes := 0, swap_total_bytes := 0
    vm_stat_out := .ok "" }

theorem collect_metrics_wall_time_spec_witness :
    collect_metrics envW 0 = .ok (collect_metrics_core envW "" 0) ∧
    collect_metrics envW 1 = .ok (collect_metrics_core envW "" 1) ∧
    (0 : ℚ) ≤ envW.now ∧ (0 : ℚ) ≤ 1 ∧
    0 ≤ (collect_metrics_core envW "" 0).wall_time_s ∧
    (collect_metrics_core envW "" 1).wall_time_s ≤
      (collect_metrics_core envW "" 0).wall_time_s :=
  ⟨collect_metrics_eq_ok rfl 0, collect_metrics_eq_ok rfl 1,
    by norm_num [envW], by norm_num,
    (collect_metrics_wall_time_spec envW 0 1 _ _ (collect_metrics_eq_ok rfl 0)
        (collect_metrics_eq_ok rfl 1)).1 (by norm_num [envW]),
    (collect_metrics_wall_time_spec envW 0 1 _ _ (collect_metrics_eq_ok rfl 0)
        (collect_metrics_eq_ok rfl 1)).2 (by norm_num)⟩

/-- Environment exhibiting the C10 divergence: `2^30 - 1` available bytes
is strictly under 1024 MB, but rounds to 1024.00 MB. -/
def env10 : Env :=
  { t_start := 0, now := 0, cpu_percent := 0, rss_bytes := 0, vm_used_bytes := 0
    vm_available_bytes := 1073741823, swap_used_bytes := 0, swap_total_bytes := 0
    vm_stat_out := .ok "" }

/-- C10: the stored `memory_pressure` classifies the unrounded
available-memory and swap values, while the stored
`system_mem_available_mb` / `swap_used_mb` fields are rounded to 2
decimals; consequently some raw samples (available memory of
`2^30 - 1` bytes, i.e. just under 1024 MB, with zero swap) store a
pressure that differs from the classification recomputed from the stored
rounded fields. -/
theorem memory_pressure_unrounded_spec :
    (∀ (env : Env) (out : String) (start : ℚ) (m : SystemMetrics),
        env.vm_stat_out = .ok out → collect_metrics env start = .ok m →
        m.memory_pressure =
          pressure_level ((env.vm_available_bytes : ℚ) / (1024 * 1024))
            ((env.swap_used_bytes : ℚ) / (1024 * 1024)) ∧
        m.system_mem_available_mb =
          pyRound ((env.vm_available_bytes : ℚ) / (1024 * 1024)) 2 ∧
        m.swap_used_mb = pyRound ((env.swap_used_bytes : ℚ) / (1024 * 1024)) 2) ∧
    (∃ (env : Env) (start : ℚ) (m : SystemMetrics),
        collect_metrics env start = .ok m ∧
        m.memory_pressure ≠ pressure_level m.system_mem_available_mb m.swap_used_mb) := by
  constructor
  · intro env out start m hv hok
    rw [collect_metrics_eq_ok hv start] at hok
    injection hok with hm
    subst hm
    exact ⟨core_memory_pressure env out start, core_system_mem_available env out start,
      core_swap_used env out start⟩
  · refine ⟨env10, 0, collect_metrics_core env10 "" 0, collect_metrics_eq_ok rfl 0, ?_⟩
    rw [core_memory_pressure, core_system_mem_available, core_swap_used]
    have hL : pressure_level ((env10.vm_available_bytes : ℚ) / (1024 * 1024))
        ((env10.swap_used_bytes : ℚ) / (1024 * 1024)) = "high" := by
      rw [pressure_level, if_pos (Or.inr (by norm_num [env10]))]
    have h2 : pyRound ((env10.vm_available_bytes : ℚ) / (1024 * 1024)) 2 = 1024 := by
      norm_num [env10, pyRound, roundHalfEven]
    have h3 : pyRound ((env10.swap_used_bytes : ℚ) / (1024 * 1024)) 2 = 0 := by
      norm_num [env10, pyRound, roundHalfEven]
    have hR : pressure_level (pyRound ((env10.vm_available_bytes : ℚ) / (1024 * 1024)) 2)
        (pyRound ((env10.swap_used_bytes : ℚ) / (1024 * 1024)) 2) = "medium" := by
      rw [h2, h3, pressure_level, if_neg (by push_neg; norm_num),
        if_pos (Or.inr (by norm_num))]
    rw [hL, hR]
    decide

theorem memory_pressure_unrounded_spec_witness :
    env10.vm_stat_out = .ok "" ∧
    collect_metrics env10 0 = .ok (collect_metrics_core env10 "" 0) ∧
    (collect_metrics_core env10 "" 0).memory_pressure =
      pressure_level ((env10.vm_available_bytes : ℚ) / (1024 * 1024))
        ((env10.swap_used_bytes : ℚ) / (1024 * 1024)) :=
  ⟨rfl, collect_metrics_eq_ok rfl 0,
    (memory_pressure_unrounded_spec.1 env10 "" 0 _ rfl (collect_metrics_eq_ok rfl 0)).1⟩

/-- C6: `run_prompt` trims leading and trailing whitespace from the
endpoint's response text: a successful reply whose `response` field is
`"  Ollama is running  "` yields a `RunResult` with response
`"Ollama is running"` and `metrics.wall_time_s ≥ 0`. -/
theorem run_prompt_strips_response :
    ∀ (env : Env) (out created : String),
      env.vm_stat_out = .ok out → env.t_start ≤ env.now →
      ∃ r : RunResult,
        run_prompt ⟨"m", 1/5, "x"⟩ env
          (.response 200 (.obj [("response", .str "  Ollama is running  ")])) created =
          (.ok r, 1) ∧
        r.response = "Ollama is running" ∧ 0 ≤ r.metrics.wall_time_s := by
  intro env out created hv hle
  refine ⟨⟨⟨"m", 1/5, "x"⟩, pyStrip "  Ollama is running  ", created,
    collect_metrics_core env out env.t_start⟩, ?_, ?_, ?_⟩
  · simp only [run_prompt]
    rw [collect_metrics_eq_ok hv env.t_start]
    rfl
  · show pyStrip "  Ollama is running  " = "Ollama is running"
    decide
  · rw [core_wall_time]
    exact pyRound_nonneg 4 (by linarith)

theorem run_prompt_strips_response_witness :
    envW.vm_stat_out = .ok "" ∧ envW.t_start ≤ envW.now ∧
    ∃ r : RunResult,
      run_prompt ⟨"m", 1/5, "x"⟩ envW
        (.response 200 (.obj [("response", .str "  Ollama is running  ")])) "t" =
        (.ok r, 1) ∧
      r.response = "Ollama is running" ∧ 0 ≤ r.metrics.wall_time_s :=
  ⟨rfl, by norm_num [envW],
    run_prompt_strips_response envW "" "t" rfl (by norm_num [envW])⟩

/-- C8: `run_prompt` fails with a `RequestError` on HTTP-level failure or
non-success (non-2xx) status from the endpoint; the run aborts and exactly
one request was issued (no retry). -/
theorem run_prompt_request_error_no_retry :
    (∀ (cfg : RunConfig) (env : Env) (created : String),
        run_prompt cfg env .netFailure created = (.error .requestError, 1)) ∧
    (∀ (cfg : RunConfig) (env : Env) (status : ℕ) (body : Json) (created : String),
        is_success status = false →
        run_prompt cfg env (.response status body) created =
          (.error .requestError, 1)) := by
  refine ⟨fun cfg env created => rfl, ?_⟩
  intro cfg env status body created h
  have h' : ¬is_success status = true := by simp [h]
  simp only [run_prompt]
  rw [if_neg h']

theorem run_prompt_request_error_no_retry_witness :
    is_success 404 = false ∧
    run_prompt ⟨"llama3.1:8b", 0, "p"⟩ envW (.response 404 (.obj [])) "t" =
      (.error .requestError, 1) :=
  ⟨rfl, run_prompt_request_error_no_retry.2 ⟨"llama3.1:8b", 0, "p"⟩ envW 404
    (.obj []) "t" rfl⟩

/-- A concrete `RunResult` carrying temperature 0.7 and the creation
timestamp 2024-01-02T03:04:05Z (the temperature is written with `mkRat` so
that it evaluates in the kernel; it equals `7/10`). -/
def rC2 : RunResult :=
  { config := { model := "llama3.1:8b", temperature := mkRat 7 10, prompt := "x" }
    response := "resp"
    created_at := "2024-01-02T03:04:05+00:00"
    metrics := ⟨0, 0, 0, 0, 0, 0, 0, "low", 0, 0⟩ }

/-- C2 counterexample: `save_run` derives the filename from the wall clock
at save time (`datetime.now`), not from the `RunResult`'s stored timestamp:
saving `rC2` (temperature 0.7, created at 2024-01-02T03:04:05Z) while the
clock reads 2025-06-07T08:09:10Z does not produce
`run_20240102_030405_t0p7.json`. -/
theorem save_run_filename_counterexample :
    rC2.config.temperature = 7/10 ∧
    rC2.created_at = "2024-01-02T03:04:05+00:00" ∧
    (save_run ⟨2025, 6, 7, 8, 9, 10⟩ rC2).1 ≠ "runs/run_20240102_030405_t0p7.json" ∧
    (save_run ⟨2025, 6, 7, 8, 9, 10⟩ rC2).1 = "runs/run_20250607_080910_t0p7.json" := by
  refine ⟨?_, rfl, by decide, by decide⟩
  show mkRat 7 10 = 7/10
  norm_num [mkRat, Rat.normalize, Rat.maybeNormalize]

/-- C2 (amended): `save_run` derives the filename from the UTC wall clock
at the moment of saving and the config's temperature with the dot replaced
by `p`; when the save-time clock reads 2024-01-02T03:04:05Z and the
temperature is 0.7, the path is `runs/run_20240102_030405_t0p7.json`, and
the full result (config + response + timestamp + metrics) is written as
JSON at that path. -/
theorem save_run_spec :
    ∀ r : RunResult, r.config.temperature = 7/10 →
      save_run ⟨2024, 1, 2, 3, 4, 5⟩ r =
        ("runs/run_20240102_030405_t0p7.json", dumpRunResult r) := by
  intro r h
  have hq : (7 : ℚ)/10 = mkRat 7 10 := by
    norm_num [mkRat, Rat.normalize, Rat.maybeNormalize]
  simp only [save_run, h, hq]
  rw [Prod.mk.injEq]
  exact ⟨by decide, rfl⟩

theorem save_run_spec_witness :
    rC2.config.temperature = 7/10 ∧
    save_run ⟨2024, 1, 2, 3, 4, 5⟩ rC2 =
      ("runs/run_20240102_030405_t0p7.json", dumpRunResult rC2) :=
  ⟨by show mkRat 7 10 = 7/10; norm_num [mkRat, Rat.normalize, Rat.maybeNormalize],
    save_run_spec rC2
      (by show mkRat 7 10 = 7/10; norm_num [mkRat, Rat.normalize, Rat.maybeNormalize])⟩

/-- A report in which "page size of 16384 bytes" and "Pages free: 1000."
both occur, but only after an earlier page-size phrase and an earlier
"Pages free" counter. -/
def c7bad : String :=
  "page size of 8 bytes page size of 16384 bytes Pages free: 3. Pages free: 1000."

/-- A report whose first page-size phrase reads 16384 and whose first
"Pages free" counter reads 1000. -/
def c7good : String :=
  "Mach Virtual Memory Statistics: (page size of 16384 bytes)\nPages free: 1000.\n"

/-- C7 counterexample: a report can contain "page size of 16384 bytes" and
"Pages free: 1000." and still not parse to `page_size = 16384` /
`pages_free = 1000`, because `re.search` takes the leftmost match: on
`c7bad` parsing yields `page_size = 8` and `pages_free = 3`. -/
theorem read_vm_stat_first_match_counterexample :
    containsSeq "page size of 16384 bytes".data c7bad.data = true ∧
    containsSeq "Pages free: 1000.".data c7bad.data = true ∧
    (read_vm_stat c7bad).page_size = 8 ∧
    (read_vm_stat c7bad).pages_free = 3 ∧
    ¬((read_vm_stat c7bad).page_size = 16384 ∧ (read_vm_stat c7bad).pages_free = 1000) := by
  refine ⟨by decide, by decide, by decide, by decide, by decide⟩

/-- C7 (amended): parsing extracts the page size from the first occurrence
of the `page size of N bytes` pattern, defaulting to 4096 when the pattern
is absent, and extracts each labeled page counter from the first
`label: <integer>.` match: on a report whose first matches read 16384 and
1000 (`c7good`), parsing yields `page_size = 16384` and
`pages_free = 1000` exactly. -/
theorem read_vm_stat_parse_spec :
    (∀ out : String, searchPageSize out.data = none →
        (read_vm_stat out).page_size = 4096) ∧
    read_vm_stat c7good = ⟨16384, 1000, 0, 0⟩ := by
  constructor
  · intro out h
    rw [read_vm_stat_page_size, h]
    rfl
  · decide

theorem read_vm_stat_parse_spec_witness :
    searchPageSize "Pages free: 5.".data = none ∧
    (read_vm_stat "Pages free: 5.").page_size = 4096 :=
  ⟨by decide, read_vm_stat_parse_spec.1 "Pages free: 5." (by decide)⟩

end LocalLLM
